import Mathlib

/-!
Verification of the StarScope host shell (src/src-tauri/src/lib.rs).

The Rust code is a set of synchronous event handlers over one piece of
shared state (a managed `SidecarState` holding `Mutex<Option<CommandChild>>`).
We embed each handler as a pure Lean function: the results of external,
fallible operations (sidecar resolution, spawn, kill, window show/focus/emit,
menu and tray construction, app-data-dir resolution) are inputs, the
application state is threaded explicitly, and the observable actions of a
handler (log lines, kill signals, exit requests, window operations,
environment-variable writes) are collected in an effect trace, in the order
the Rust code performs them.
-/

namespace StarScope

/-- Severity of a structured log line (`tracing::warn!` / `tracing::info!`). -/
inductive LogLevel
  | warn
  | info
  deriving DecidableEq

/-- Observable actions of the handlers in src/src-tauri/src/lib.rs, in the
order the code performs them. `resolveSidecar` is the `app.shell().sidecar(..)`
call, `spawnSidecar` the `cmd.spawn()` call, `installState` the `app.manage(..)`
call, `kill` the `child.kill()` call (the attempt to send the signal, whether
or not the OS accepts it), `exitApp` the `app.exit(code)` call, and
`emitEvent` carries the unit payload of `window.emit("refresh-all", ())`. -/
inductive Effect
  | log (lvl : LogLevel) (msg : String)
  | resolveSidecar
  | spawnSidecar
  | installState
  | kill (child : Nat)
  | exitApp (code : Nat)
  | showWindow
  | focusWindow
  | emitEvent (window : String) (event : String) (payload : Unit)
  | setEnvVar (name : String) (value : String)
  | trayBuilt
  deriving DecidableEq

/-- Is the effect an `app.manage(SidecarState)` installation? -/
def Effect.isInstall : Effect → Bool
  | .installState => true
  | _ => false

/-- Is the effect a kill-signal send (`child.kill()`)? -/
def Effect.isKill : Effect → Bool
  | .kill _ => true
  | _ => false

/-- Is the effect an application-exit request (`app.exit(..)`)? -/
def Effect.isExit : Effect → Bool
  | .exitApp _ => true
  | _ => false

/-- Is the effect a warning-severity log line? -/
def Effect.isWarnLog : Effect → Bool
  | .log .warn _ => true
  | _ => false

/-- Is the effect an info-severity log line? -/
def Effect.isInfoLog : Effect → Bool
  | .log .info _ => true
  | _ => false

/-- Is the effect an environment-variable write (`std::env::set_var`)? -/
def Effect.isSetEnv : Effect → Bool
  | .setEnvVar _ _ => true
  | _ => false

/-- A `std::sync::Mutex`: `lock()` succeeds and yields the contents exactly
when the mutex is not poisoned (`if let Ok(mut guard) = ...lock()`). -/
structure MutexCell (α : Type) where
  poisoned : Bool
  contents : α
  deriving DecidableEq

/-- `struct SidecarState { child: Mutex<Option<CommandChild>> }`: the process
handle store. Spawned child handles are identified by a `Nat` process id. -/
structure SidecarState where
  child : MutexCell (Option Nat)
  deriving DecidableEq

/-- The application as the handlers see it: `sidecar` is the managed
`SidecarState` (`none` before `app.manage` ran, mirroring `try_state`), and
`windows` the logical names of the existing webview windows, so that
`get_webview_window name` succeeds exactly when `name` is in the list. -/
structure AppState where
  sidecar : Option SidecarState
  windows : List String
  deriving DecidableEq

/-- `app.get_webview_window(name)` succeeds iff a window of that name exists. -/
def getWebviewWindow (app : AppState) (name : String) : Bool :=
  app.windows.contains name

/-- Results of the fallible window operations a handler may perform
(`window.show()`, `window.set_focus()`, `window.emit(..)`). -/
structure UiResults where
  showResult : Except String Unit
  focusResult : Except String Unit
  emitResult : Except String Unit

/-- `fn start_sidecar(app: &App)`: resolve the bundled sidecar command, spawn
it, and `app.manage` a `SidecarState` holding `Some(child)` on success and
`None` on either failure branch; failures only log a warning. `res` is the outcome
of `app.shell().sidecar("starscope-sidecar")` and `spawn` the outcome of
`cmd.spawn()` (consulted only when resolution succeeded, as in the code). -/
def start_sidecar (res : Except String Unit) (spawn : Except String Nat)
    (app : AppState) : AppState × List Effect :=
  match res with
  | .ok _ =>
    match spawn with
    | .ok child =>
      ({ app with sidecar := some ⟨⟨false, some child⟩⟩ },
       [.resolveSidecar, .spawnSidecar, .installState])
    | .error e =>
      ({ app with sidecar := some ⟨⟨false, none⟩⟩ },
       [.resolveSidecar, .spawnSidecar,
        .log .warn ("sidecar 啟動失敗: " ++ e ++ "，開發環境請執行 ./start-dev.sh"),
        .installState])
  | .error e =>
    ({ app with sidecar := some ⟨⟨false, none⟩⟩ },
     [.resolveSidecar,
      .log .warn ("找不到 sidecar: " ++ e ++ "，開發環境請執行 ./start-dev.sh"),
      .installState])

/-- `fn cleanup_sidecar(app: &AppHandle)`: if the `SidecarState` is managed
and its mutex lock succeeds, `take()` the handle out of the guard and, if one
was present, send a kill signal, logging a warning on kill failure and an info
line on success. `killResult` gives the OS response to `child.kill()`. -/
def cleanup_sidecar (killResult : Nat → Except String Unit) (app : AppState) :
    AppState × List Effect :=
  match app.sidecar with
  | none => (app, [])
  | some state =>
    if state.child.poisoned then (app, [])
    else
      match state.child.contents with
      | none => (app, [])
      | some child =>
        let app1 : AppState := { app with sidecar := some ⟨⟨false, none⟩⟩ }
        match killResult child with
        | .error e =>
          (app1, [.kill child, .log .warn ("Failed to kill sidecar process: " ++ e)])
        | .ok _ =>
          (app1, [.kill child, .log .info "Sidecar process terminated successfully"])

/-- The warning logged for a failed fallible UI call, prefix as in the code;
empty trace when the call succeeded (`if let Err(e) = ... { warn!(..) }`). -/
def warnFx (r : Except String Unit) (pre : String) : List Effect :=
  match r with
  | .error e => [.log .warn (pre ++ e)]
  | .ok _ => []

/-- `fn show_main_window(app: &AppHandle)`: look up the window named "main";
if absent do nothing; if present request show then focus, logging (never
propagating) each failure independently. -/
def show_main_window (ui : UiResults) (app : AppState) : List Effect :=
  if getWebviewWindow app "main" then
    [Effect.showWindow] ++ warnFx ui.showResult "Failed to show main window: " ++
    [Effect.focusWindow] ++ warnFx ui.focusResult "Failed to focus main window: "
  else []

/-- `fn handle_tray_menu_event(app, event)`: dispatch on the menu id.
"show" shows the main window, "refresh" emits `refresh-all` (unit payload) to
the main window if it exists, logging an emit failure, "quit" calls
`app.exit(0)`, anything else does nothing. -/
def handle_tray_menu_event (ui : UiResults) (app : AppState) (menuId : String) :
    List Effect :=
  if menuId = "show" then show_main_window ui app
  else if menuId = "refresh" then
    if getWebviewWindow app "main" then
      [Effect.emitEvent "main" "refresh-all" ()] ++
        warnFx ui.emitResult "Failed to emit refresh-all event: "
    else []
  else if menuId = "quit" then [Effect.exitApp 0]
  else []

/-- Mouse button of a tray-icon click (`tauri::tray::MouseButton`). -/
inductive MouseBtn
  | left
  | right
  | middle
  deriving DecidableEq

/-- Button state of a tray-icon click (`tauri::tray::MouseButtonState`). -/
inductive MouseBtnState
  | up
  | down
  deriving DecidableEq

/-- `tauri::tray::TrayIconEvent`, the events a tray icon can deliver. -/
inductive TrayIconEvent
  | click (button : MouseBtn) (buttonState : MouseBtnState)
  | doubleClick (button : MouseBtn)
  | enter
  | move
  | leave
  deriving DecidableEq

/-- `fn handle_tray_click(tray, event)`: a left-button click with button
state Up shows the main window; every other event does nothing. -/
def handle_tray_click (ui : UiResults) (app : AppState) (event : TrayIconEvent) :
    List Effect :=
  match event with
  | .click .left .up => show_main_window ui app
  | _ => []

/-- Results of the fallible construction steps in `setup_tray`: the three
`MenuItem::with_id` calls, `Menu::with_items`, `app.default_window_icon()`
(`none` when unset), and `TrayIconBuilder::..build(app)`. -/
structure TrayBuildEnv where
  showItem : Except String Unit
  refreshItem : Except String Unit
  quitItem : Except String Unit
  menuResult : Except String Unit
  defaultIcon : Option Unit
  buildResult : Except String Unit

/-- `fn setup_tray(app: &App) -> Result<(), Box<dyn Error>>`: build the three
menu items, the menu, fetch the default window icon (error with the message
from the code when unset), and build the tray icon; the first failure
propagates via `?`. On success the trace records the built tray. -/
def setup_tray (env : TrayBuildEnv) : Except String (List Effect) :=
  match env.showItem with
  | .error e => .error e
  | .ok _ =>
  match env.refreshItem with
  | .error e => .error e
  | .ok _ =>
  match env.quitItem with
  | .error e => .error e
  | .ok _ =>
  match env.menuResult with
  | .error e => .error e
  | .ok _ =>
  match env.defaultIcon with
  | none => .error "No default window icon configured in tauri.conf.json"
  | some _ =>
  match env.buildResult with
  | .error e => .error e
  | .ok _ => .ok [Effect.trayBuilt]

/-- The environment-variable write in the setup closure:
`if let Ok(app_data_dir) = app.path().app_data_dir() { set_var(..) }`. -/
def envEffects (appDataDir : Except String String) : List Effect :=
  match appDataDir with
  | .ok d => [.setEnvVar "TAURI_APP_DATA_DIR" d]
  | .error _ => []

/-- The `.setup(|app| ...)` closure of `run()`: publish `TAURI_APP_DATA_DIR`
when the app-data dir resolves, then `start_sidecar(app)`, then
`setup_tray(app)?`. State mutations made before a tray error persist (the
store is already installed); the third component is the closure result, an
error exactly when `setup_tray` failed, which aborts application startup. -/
def setup (appDataDir : Except String String) (res : Except String Unit)
    (spawn : Except String Nat) (tray : TrayBuildEnv) (app : AppState) :
    AppState × List Effect × Except String Unit :=
  let p := start_sidecar res spawn app
  match setup_tray tray with
  | .error e => (p.1, envEffects appDataDir ++ p.2, .error e)
  | .ok tfx => (p.1, envEffects appDataDir ++ p.2 ++ tfx, .ok ())

/-- One atomic `Option::take` on the guarded slot: returns the new store
contents and what this caller received. -/
def takeSlot (store : Option Nat) : Option Nat × Option Nat := (none, store)

/-- Run the atomic takes of a list of callers against the store, in arrival
order. The mutex serializes the critical sections, so a concurrent execution
of identical `take` callers is exactly some arrival order, i.e. some list of
caller ids; the result pairs each caller with what its take returned. -/
def runTakes (store : Option Nat) : List Nat → List (Nat × Option Nat)
  | [] => []
  | c :: cs => (c, (takeSlot store).2) :: runTakes (takeSlot store).1 cs

/-- A kill call the OS accepts. -/
def kOk : Nat → Except String Unit := fun _ => Except.ok ()

/-- A kill call the OS rejects (process already exited). -/
def kErr : Nat → Except String Unit := fun _ => Except.error "ESRCH"

/-- An app with a running sidecar (handle 7) and a main window. -/
def appRunning : AppState := { sidecar := some ⟨⟨false, some 7⟩⟩, windows := ["main"] }

/-- An app where the sidecar state was never installed and no window exists. -/
def appEmpty : AppState := { sidecar := none, windows := [] }

/-- An app whose sidecar store mutex is poisoned. -/
def appPoisoned : AppState := { sidecar := some ⟨⟨true, some 7⟩⟩, windows := [] }

/-- All window operations succeed. -/
def uiAllOk : UiResults := ⟨Except.ok (), Except.ok (), Except.ok ()⟩

/-- Every tray construction step succeeds. -/
def trayAllOk : TrayBuildEnv :=
  ⟨Except.ok (), Except.ok (), Except.ok (), Except.ok (), some (), Except.ok ()⟩

/-- Tray construction environment with no default window icon configured. -/
def trayNoIcon : TrayBuildEnv :=
  ⟨Except.ok (), Except.ok (), Except.ok (), Except.ok (), none, Except.ok ()⟩

/-- `cleanup_sidecar` when the sidecar state was never installed. -/
theorem cleanup_sidecar_uninstalled (k : Nat → Except String Unit) (app : AppState)
    (h : app.sidecar = none) : cleanup_sidecar k app = (app, []) := by
  simp [cleanup_sidecar, h]

/-- `cleanup_sidecar` when the store mutex is poisoned. -/
theorem cleanup_sidecar_poisoned (k : Nat → Except String Unit) (app : AppState)
    (cont : Option Nat) (h : app.sidecar = some ⟨⟨true, cont⟩⟩) :
    cleanup_sidecar k app = (app, []) := by
  simp [cleanup_sidecar, h]

/-- `cleanup_sidecar` when the slot is empty: the take yields nothing and the
handler does nothing. -/
theorem cleanup_sidecar_absent (k : Nat → Except String Unit) (app : AppState)
    (h : app.sidecar = some ⟨⟨false, none⟩⟩) : cleanup_sidecar k app = (app, []) := by
  simp [cleanup_sidecar, h]

/-- `cleanup_sidecar` on a running store: the handle is taken out, the kill
signal sent, and the OS answer logged. -/
theorem cleanup_sidecar_running (k : Nat → Except String Unit) (app : AppState)
    (c : Nat) (h : app.sidecar = some ⟨⟨false, some c⟩⟩) :
    cleanup_sidecar k app =
      ({ app with sidecar := some ⟨⟨false, none⟩⟩ },
        match k c with
        | .error e => [.kill c, .log .warn ("Failed to kill sidecar process: " ++ e)]
        | .ok _ => [.kill c, .log .info "Sidecar process terminated successfully"]) := by
  rcases hk : k c with e | u <;> simp [cleanup_sidecar, h, hk]

/-- Claim C1: for every launch outcome of `start_sidecar` (resolution and
spawn succeed, resolution fails, or spawn fails), the `SidecarState` is
installed into the app exactly once; the stored handle is `some child` iff
both resolution and spawn succeeded, and `none` in the two failure cases;
and no launch failure aborts or propagates past the launcher: the trace holds
no exit, no kill, and at most warning-severity logs, and the function returns
normally (it is total by type). -/
theorem c1_start_sidecar_installs_once (res : Except String Unit)
    (spawn : Except String Nat) (app : AppState) :
    ((start_sidecar res spawn app).2.countP Effect.isInstall = 1) ∧
    (∃ s, (start_sidecar res spawn app).1.sidecar = some s ∧
      s.child.poisoned = false ∧
      s.child.contents.isSome = (res.isOk && spawn.isOk) ∧
      (∀ c, spawn = Except.ok c → res.isOk = true → s.child.contents = some c)) ∧
    (∀ fx ∈ (start_sidecar res spawn app).2,
      fx.isExit = false ∧ fx.isKill = false ∧ fx.isInfoLog = false) := by
  rcases res with e | u <;> rcases spawn with e2 | c <;>
    simp [start_sidecar, Effect.isInstall, Effect.isExit, Effect.isKill,
      Effect.isInfoLog, Except.isOk, Except.toBool]

/-- C1 witness at a successful launch: exactly one installation, and the
installation effect itself is neither an exit nor a kill. -/
theorem c1_start_sidecar_installs_once_witness :
    (start_sidecar (Except.ok ()) (Except.ok 7) appEmpty).2.countP Effect.isInstall = 1 ∧
    Effect.installState.isExit = false := by
  refine ⟨(c1_start_sidecar_installs_once (Except.ok ()) (Except.ok 7) appEmpty).1, ?_⟩
  exact ((c1_start_sidecar_installs_once (Except.ok ()) (Except.ok 7) appEmpty).2.2
    Effect.installState (by simp [start_sidecar])).1

/-- Claim C2: running the close-request handler twice in sequence sends at
most one kill signal in total, from every starting store state; if the state
was running, the first call sends exactly one kill, leaves the store with an
empty (non-poisoned) slot, and the second call performs no action at all. -/
theorem c2_cleanup_sidecar_twice (k1 k2 : Nat → Except String Unit) (app : AppState) :
    (((cleanup_sidecar k1 app).2 ++
        (cleanup_sidecar k2 (cleanup_sidecar k1 app).1).2).countP Effect.isKill ≤ 1) ∧
    (∀ s c, app.sidecar = some s → s.child.poisoned = false →
      s.child.contents = some c →
      (cleanup_sidecar k1 app).2.countP Effect.isKill = 1 ∧
      (cleanup_sidecar k1 app).1.sidecar = some ⟨⟨false, none⟩⟩ ∧
      cleanup_sidecar k2 (cleanup_sidecar k1 app).1 = ((cleanup_sidecar k1 app).1, [])) := by
  have hsecond : ∀ c, app.sidecar = some ⟨⟨false, some c⟩⟩ →
      (cleanup_sidecar k1 app).2.countP Effect.isKill = 1 ∧
      (cleanup_sidecar k1 app).1.sidecar = some ⟨⟨false, none⟩⟩ ∧
      cleanup_sidecar k2 (cleanup_sidecar k1 app).1 = ((cleanup_sidecar k1 app).1, []) := by
    intro c h
    rw [cleanup_sidecar_running k1 app c h]
    refine ⟨?_, rfl, cleanup_sidecar_absent k2 _ rfl⟩
    rcases k1 c with e | u <;> simp [Effect.isKill]
  constructor
  · rcases hs : app.sidecar with _ | ⟨⟨p, cont⟩⟩
    · rw [cleanup_sidecar_uninstalled k1 app hs]
      rw [cleanup_sidecar_uninstalled k2 app hs]
      simp
    · cases p
      · rcases cont with _ | c0
        · rw [cleanup_sidecar_absent k1 app hs]
          rw [cleanup_sidecar_absent k2 app hs]
          simp
        · obtain ⟨h1, h2, h3⟩ := hsecond c0 hs
          rw [h3]
          simpa [Effect.isKill] using Nat.le_of_eq h1
      · rw [cleanup_sidecar_poisoned k1 app cont hs]
        rw [cleanup_sidecar_poisoned k2 app cont hs]
        simp
  · rintro ⟨⟨p2, cont2⟩⟩ c hs hp hc
    dsimp at hp hc
    subst hp; subst hc
    exact hsecond c hs

/-- C2 witness on a running store: one kill, store emptied, second call a
no-op. -/
theorem c2_cleanup_sidecar_twice_witness :
    (cleanup_sidecar kOk appRunning).2.countP Effect.isKill = 1 ∧
    (cleanup_sidecar kOk appRunning).1.sidecar = some ⟨⟨false, none⟩⟩ ∧
    cleanup_sidecar kOk (cleanup_sidecar kOk appRunning).1 =
      ((cleanup_sidecar kOk appRunning).1, []) :=
  (c2_cleanup_sidecar_twice kOk kOk appRunning).2 ⟨⟨false, some 7⟩⟩ 7 rfl rfl rfl

/-- Claim C3: whatever the OS answers to the kill signal, `cleanup_sidecar`
completes normally (it is total and returns a plain pair, propagating no
error) and never requests an exit; on kill failure its trace is the kill
attempt followed by a warning, on kill success the kill followed by an info
line. -/
theorem c3_cleanup_sidecar_never_blocks (k : Nat → Except String Unit) (app : AppState) :
    (∀ fx ∈ (cleanup_sidecar k app).2, fx.isExit = false) ∧
    (∀ s c, app.sidecar = some s → s.child.poisoned = false →
      s.child.contents = some c →
      (∀ e, k c = Except.error e →
        (cleanup_sidecar k app).2 =
          [Effect.kill c, Effect.log .warn ("Failed to kill sidecar process: " ++ e)]) ∧
      (k c = Except.ok () →
        (cleanup_sidecar k app).2 =
          [Effect.kill c, Effect.log .info "Sidecar process terminated successfully"])) := by
  constructor
  · rcases hs : app.sidecar with _ | ⟨⟨p, cont⟩⟩
    · simp [cleanup_sidecar_uninstalled k app hs]
    · cases p
      · rcases cont with _ | c0
        · simp [cleanup_sidecar_absent k app hs]
        · rw [cleanup_sidecar_running k app c0 hs]
          rcases k c0 with e | u <;> simp [Effect.isExit]
      · simp [cleanup_sidecar_poisoned k app cont hs]
  · rintro ⟨⟨p2, cont2⟩⟩ c hs hp hc
    dsimp at hp hc
    subst hp; subst hc
    rw [cleanup_sidecar_running k app c hs]
    constructor
    · intro e he; rw [he]
    · intro ho; rw [ho]

/-- C3 witness: when the OS rejects the kill, the handler still returns,
with the kill attempt and the warning in its trace. -/
theorem c3_cleanup_sidecar_never_blocks_witness :
    (cleanup_sidecar kErr appRunning).2 =
      [Effect.kill 7, Effect.log .warn ("Failed to kill sidecar process: " ++ "ESRCH")] :=
  ((c3_cleanup_sidecar_never_blocks kErr appRunning).2 ⟨⟨false, some 7⟩⟩ 7
    rfl rfl rfl).1 "ESRCH" rfl

/-- Claim C10: `cleanup_sidecar` is total at its public boundary: when the
`SidecarState` was never installed, or when the store mutex is poisoned, the
handler returns silently without touching the state and without sending any
kill signal. -/
theorem c10_cleanup_sidecar_total (k : Nat → Except String Unit) (app : AppState) :
    (app.sidecar = none → cleanup_sidecar k app = (app, [])) ∧
    (∀ s, app.sidecar = some s → s.child.poisoned = true →
      cleanup_sidecar k app = (app, [])) := by
  constructor
  · intro h; exact cleanup_sidecar_uninstalled k app h
  · rintro ⟨⟨p2, cont2⟩⟩ hs hp
    dsimp at hp
    subst hp
    exact cleanup_sidecar_poisoned k app cont2 hs

/-- C10 witness: silent return both with no installed state and with a
poisoned store. -/
theorem c10_cleanup_sidecar_total_witness :
    cleanup_sidecar kOk appEmpty = (appEmpty, []) ∧
    cleanup_sidecar kOk appPoisoned = (appPoisoned, []) :=
  ⟨(c10_cleanup_sidecar_total kOk appEmpty).1 rfl,
   (c10_cleanup_sidecar_total kOk appPoisoned).2 ⟨⟨true, some 7⟩⟩ rfl rfl⟩

/-- After the slot has been emptied, every later take returns nothing. -/
theorem runTakes_emptied (cs : List Nat) :
    runTakes none cs = cs.map (fun c => (c, none)) := by
  induction cs with
  | nil => rfl
  | cons c cs ih => simp [runTakes, takeSlot, ih]

/-- No taker of an emptied slot receives a handle. -/
theorem runTakes_emptied_filter_some (cs : List Nat) :
    ((runTakes none cs).filter (fun p => p.2.isSome)).length = 0 := by
  induction cs with
  | nil => rfl
  | cons c cs ih => simpa [runTakes, takeSlot] using ih

/-- Every taker of an emptied slot receives nothing. -/
theorem runTakes_emptied_filter_none (cs : List Nat) :
    ((runTakes none cs).filter (fun p => p.2 = none)).length = cs.length := by
  induction cs with
  | nil => rfl
  | cons c cs ih => simpa [runTakes, takeSlot] using ih

/-- Claim C4: when N callers run the store take concurrently after a running
install (handle `h` in the slot), then for every interleaving — every arrival
order `sched` of the callers at the mutex — exactly one caller receives the
handle, the other N−1 receive nothing, and the receiver is whichever caller
arrives first. -/
theorem c4_take_exclusive (h : Nat) (sched : List Nat) (hne : sched ≠ []) :
    ((runTakes (some h) sched).filter (fun p => p.2.isSome)).length = 1 ∧
    ((runTakes (some h) sched).filter (fun p => p.2 = none)).length = sched.length - 1 ∧
    (runTakes (some h) sched).head? = sched.head?.map (fun c => (c, some h)) := by
  cases sched with
  | nil => exact absurd rfl hne
  | cons c cs =>
    refine ⟨?_, ?_, ?_⟩
    · simpa [runTakes, takeSlot] using runTakes_emptied_filter_some cs
    · simpa [runTakes, takeSlot] using runTakes_emptied_filter_none cs
    · simp [runTakes, takeSlot]

/-- C4 witness: three concurrent callers arriving as 2, 0, 1 — one handle
recipient, two empty-handed, the first arrival (caller 2) is the recipient. -/
theorem c4_take_exclusive_witness :
    ((runTakes (some 7) [2, 0, 1]).filter (fun p => p.2.isSome)).length = 1 ∧
    (runTakes (some 7) [2, 0, 1]).head? = some (2, some 7) :=
  ⟨(c4_take_exclusive 7 [2, 0, 1] (by decide)).1,
   (c4_take_exclusive 7 [2, 0, 1] (by decide)).2.2⟩

/-- Claim C5: `show_main_window` looks the main window up by name — absent
means no-op; present means a show request then a focus request, in that
order, each failure logged independently without propagating (the handler is
total) — and a tray-icon left-click with button state Up has exactly the
effect of the Show menu action (both run `show_main_window`), while every
other tray-icon event has no effect. -/
theorem c5_show_and_focus (ui : UiResults) (app : AppState) :
    (getWebviewWindow app "main" = false → show_main_window ui app = []) ∧
    (getWebviewWindow app "main" = true →
      show_main_window ui app =
        [Effect.showWindow] ++ warnFx ui.showResult "Failed to show main window: " ++
        [Effect.focusWindow] ++ warnFx ui.focusResult "Failed to focus main window: ") ∧
    handle_tray_click ui app (.click .left .up) = handle_tray_menu_event ui app "show" ∧
    (∀ e : TrayIconEvent, e ≠ .click .left .up → handle_tray_click ui app e = []) := by
  refine ⟨?_, ?_, ?_, ?_⟩
  · intro hw; simp [show_main_window, hw]
  · intro hw; simp [show_main_window, hw]
  · simp [handle_tray_click, handle_tray_menu_event]
  · intro e he
    cases e with
    | click b s =>
      cases b <;> cases s <;> first | exact absurd rfl he | rfl
    | doubleClick b => rfl
    | enter => rfl
    | move => rfl
    | leave => rfl

/-- C5 witness: no window installed means no effect; a left-click with
button state Down is ignored. -/
theorem c5_show_and_focus_witness :
    show_main_window uiAllOk appEmpty = [] ∧
    handle_tray_click uiAllOk appRunning (.click .left .down) = [] :=
  ⟨(c5_show_and_focus uiAllOk appEmpty).1 rfl,
   (c5_show_and_focus uiAllOk appRunning).2.2.2 (.click .left .down) (by decide)⟩

/-- Claim C6: the RefreshAll menu action with no window named "main" is a
silent no-op (empty trace, no error — the handler is total); with the window
present it emits the `refresh-all` event with unit payload to it, logging an
emit failure without propagating; and in every case it requests no exit and
sends no kill. -/
theorem c6_refresh_all (ui : UiResults) (app : AppState) :
    (getWebviewWindow app "main" = false →
      handle_tray_menu_event ui app "refresh" = []) ∧
    (getWebviewWindow app "main" = true →
      handle_tray_menu_event ui app "refresh" =
        [Effect.emitEvent "main" "refresh-all" ()] ++
          warnFx ui.emitResult "Failed to emit refresh-all event: ") ∧
    ((handle_tray_menu_event ui app "refresh").countP Effect.isExit = 0 ∧
      (handle_tray_menu_event ui app "refresh").countP Effect.isKill = 0) := by
  refine ⟨?_, ?_, ?_⟩
  · intro hw; simp [handle_tray_menu_event, hw]
  · intro hw; simp [handle_tray_menu_event, hw]
  · rcases hw : getWebviewWindow app "main" with _ | _ <;>
      rcases hr : ui.emitResult with e | u <;>
      simp [handle_tray_menu_event, hw, warnFx, hr, Effect.isExit, Effect.isKill]

/-- C6 witness: no main window — the RefreshAll action does nothing; main
window present with a successful emit — exactly the emit effect. -/
theorem c6_refresh_all_witness :
    handle_tray_menu_event uiAllOk appEmpty "refresh" = [] ∧
    handle_tray_menu_event uiAllOk appRunning "refresh" =
      [Effect.emitEvent "main" "refresh-all" ()] := by
  refine ⟨(c6_refresh_all uiAllOk appEmpty).1 rfl, ?_⟩
  have h := (c6_refresh_all uiAllOk appRunning).2.1 rfl
  simpa [uiAllOk, warnFx] using h

/-- Claim C7: the Quit menu action always requests application exit with
code 0 — its trace is exactly the exit request, for every application state
(worker running or absent), so no kill signal, no window-close handling and
no sidecar cleanup happens first. -/
theorem c7_quit (ui : UiResults) (app : AppState) :
    handle_tray_menu_event ui app "quit" = [Effect.exitApp 0] ∧
    (handle_tray_menu_event ui app "quit").countP Effect.isKill = 0 := by
  constructor
  · rfl
  · rfl

/-- `start_sidecar` always installs the state. -/
theorem start_sidecar_installs (res : Except String Unit) (spawn : Except String Nat)
    (app : AppState) : (start_sidecar res spawn app).1.sidecar.isSome = true := by
  rcases res with e | u <;> rcases spawn with e2 | c <;> simp [start_sidecar]

/-- `start_sidecar` never writes an environment variable. -/
theorem start_sidecar_no_setenv (res : Except String Unit) (spawn : Except String Nat)
    (app : AppState) : (start_sidecar res spawn app).2.countP Effect.isSetEnv = 0 := by
  rcases res with e | u <;> rcases spawn with e2 | c <;>
    simp [start_sidecar, Effect.isSetEnv]

/-- Claim C8: in the setup closure, the sidecar launch and installation
complete before tray construction begins — the trace is the env-var prefix,
then the whole `start_sidecar` trace, then the tray effects — the store is
installed even when the tray fails, the closure result is an error exactly
when `setup_tray` failed (worker-launch failure alone never makes it fail),
and a missing default window icon, a menu-item construction failure, or a
tray build failure each make `setup_tray` fail. -/
theorem c8_setup_order_and_tray_fatal (ad : Except String String)
    (res : Except String Unit) (spawn : Except String Nat) (tray : TrayBuildEnv)
    (app : AppState) :
    ((setup ad res spawn tray app).1.sidecar.isSome = true) ∧
    (∃ tfx, (setup ad res spawn tray app).2.1 =
      envEffects ad ++ (start_sidecar res spawn app).2 ++ tfx) ∧
    ((setup ad res spawn tray app).2.2.isOk = (setup_tray tray).isOk) ∧
    (tray.defaultIcon = none → (setup_tray tray).isOk = false) ∧
    (∀ e, tray.showItem = Except.error e → (setup_tray tray).isOk = false) ∧
    (∀ e, tray.buildResult = Except.error e → (setup_tray tray).isOk = false) := by
  refine ⟨?_, ?_, ?_, ?_, ?_, ?_⟩
  · cases hst : setup_tray tray with
    | error e => simpa [setup, hst] using start_sidecar_installs res spawn app
    | ok tfx => simpa [setup, hst] using start_sidecar_installs res spawn app
  · cases hst : setup_tray tray with
    | error e => exact ⟨[], by simp [setup, hst]⟩
    | ok tfx => exact ⟨tfx, by simp [setup, hst]⟩
  · cases hst : setup_tray tray with
    | error e => simp [setup, hst, Except.isOk, Except.toBool]
    | ok tfx => simp [setup, hst, Except.isOk, Except.toBool]
  · intro hi
    rcases tray with ⟨si, ri, qi, mi, di, bi⟩
    dsimp at hi; subst hi
    rcases si with e | u <;> rcases ri with e | u2 <;> rcases qi with e | u3 <;>
      rcases mi with e | u4 <;>
      simp [setup_tray, Except.isOk, Except.toBool]
  · intro e he
    rcases tray with ⟨si, ri, qi, mi, di, bi⟩
    dsimp at he; subst he
    simp [setup_tray, Except.isOk, Except.toBool]
  · intro e he
    rcases tray with ⟨si, ri, qi, mi, di, bi⟩
    dsimp at he; subst he
    rcases si with e2 | u <;> rcases ri with e2 | u2 <;> rcases qi with e2 | u3 <;>
      rcases mi with e2 | u4 <;> rcases di with _ | u5 <;>
      simp [setup_tray, Except.isOk, Except.toBool]

/-- C8 witness: with a successful launch and a tray environment whose only
defect is the missing default window icon, the setup closure fails. -/
theorem c8_setup_order_and_tray_fatal_witness :
    (setup (Except.ok "/data") (Except.ok ()) (Except.ok 7) trayNoIcon appEmpty).2.2.isOk
      = false := by
  have h := c8_setup_order_and_tray_fatal (Except.ok "/data") (Except.ok ()) (Except.ok 7)
    trayNoIcon appEmpty
  rw [h.2.2.1]
  exact h.2.2.2.1 rfl

/-- Claim C9 counterexample: a startup on which the app-data directory does
not resolve publishes no environment variable at all, so the variable is not
published on every startup. -/
theorem c9_counterexample_no_publish_on_unresolved_dir :
    ((setup (Except.error "app data dir unavailable") (Except.ok ()) (Except.ok 7)
      trayAllOk appEmpty).2.1.countP Effect.isSetEnv) = 0 := by
  rfl

/-- Claim C9 (amended): when the app-data directory resolves to `d`, the
setup closure publishes `TAURI_APP_DATA_DIR = d` exactly once, as the very
first effect — before the sidecar resolution, spawn and installation and
before tray construction, none of which write any environment variable; when
the directory does not resolve, nothing is published. -/
theorem c9_env_var_published_when_dir_resolves (ad : Except String String)
    (res : Except String Unit) (spawn : Except String Nat) (tray : TrayBuildEnv)
    (app : AppState) :
    (∀ d, ad = Except.ok d →
      ∃ tfx, (setup ad res spawn tray app).2.1 =
          Effect.setEnvVar "TAURI_APP_DATA_DIR" d ::
            ((start_sidecar res spawn app).2 ++ tfx) ∧
        ((start_sidecar res spawn app).2 ++ tfx).countP Effect.isSetEnv = 0) ∧
    (∀ e, ad = Except.error e →
      (setup ad res spawn tray app).2.1.countP Effect.isSetEnv = 0) := by
  constructor
  · intro d hd; subst hd
    cases hst : setup_tray tray with
    | error e =>
      refine ⟨[], by simp [setup, hst, envEffects], ?_⟩
      simpa using start_sidecar_no_setenv res spawn app
    | ok tfx =>
      refine ⟨tfx, by simp [setup, hst, envEffects], ?_⟩
      have htfx : tfx.countP Effect.isSetEnv = 0 := by
        rcases tray with ⟨si, ri, qi, mi, di, bi⟩
        rcases si with e | u <;> rcases ri with e | u2 <;> rcases qi with e | u3 <;>
          rcases mi with e | u4 <;> rcases di with _ | u5 <;> rcases bi with e | u6 <;>
          (simp [setup_tray] at hst; all_goals simp [← hst, Effect.isSetEnv])
      simp [List.countP_append, htfx, start_sidecar_no_setenv res spawn app]
  · intro e he; subst he
    cases hst : setup_tray tray with
    | error e2 =>
      simp [setup, hst, envEffects, start_sidecar_no_setenv res spawn app]
    | ok tfx =>
      have htfx : tfx.countP Effect.isSetEnv = 0 := by
        rcases tray with ⟨si, ri, qi, mi, di, bi⟩
        rcases si with e2 | u <;> rcases ri with e2 | u2 <;> rcases qi with e2 | u3 <;>
          rcases mi with e2 | u4 <;> rcases di with _ | u5 <;> rcases bi with e2 | u6 <;>
          (simp [setup_tray] at hst; all_goals simp [← hst, Effect.isSetEnv])
      simp [setup, hst, envEffects, List.countP_append, htfx,
        start_sidecar_no_setenv res spawn app]

/-- C9 witness: on a startup where the directory resolves to /data, the
variable is written exactly once. -/
theorem c9_env_var_published_witness :
    (setup (Except.ok "/data") (Except.ok ()) (Except.ok 7) trayAllOk
      appEmpty).2.1.countP Effect.isSetEnv = 1 := by
  obtain ⟨tfx, h1, h2⟩ :=
    (c9_env_var_published_when_dir_resolves (Except.ok "/data") (Except.ok ())
      (Except.ok 7) trayAllOk appEmpty).1 "/data" rfl
  rw [h1]
  simp [List.countP_cons, h2, Effect.isSetEnv]

end StarScope
